import Mathlib

/-!
Verification development for the RealTimeAPI_Detect pipeline (src/main.py).

The Python program records audio, submits it to a redaction REST API,
polls a status endpoint, and forwards the redacted audio over a
websocket to a speech model, accumulating the streamed base64 reply.

This file gives a shallow embedding of the data model and of the
operations of src/main.py: base64 encoding/decoding as CPython
implements them (binascii.a2b_base64 in non-strict mode), the pydub
AudioSegment framing parameters, the detect request payload, the
status polling loop of main(), and the websocket receive loop.
-/

/-! ### Base64, as CPython binascii implements it (non-strict mode)

Python `base64.b64decode` discards characters outside the alphabet and,
crucially, stops at the first complete padding sequence: every byte of
input after a quad is closed by padding is silently dropped.  The
encoder is the standard one.  Bytes are modelled as Nat values below 256. -/

def b64val (c : Char) : Option Nat :=
  if 'A' ≤ c ∧ c ≤ 'Z' then some (c.toNat - 65)
  else if 'a' ≤ c ∧ c ≤ 'z' then some (c.toNat - 97 + 26)
  else if '0' ≤ c ∧ c ≤ '9' then some (c.toNat - 48 + 52)
  else if c = '+' then some 62
  else if c = '/' then some 63
  else none

/-- CPython binascii.a2b_base64 main loop, non-strict mode: `quadPos` is
the number of data characters accumulated in the current quad, `leftchar`
their bits, `pads` the count of padding characters seen in the current
quad.  A padding character that closes a quad emits the final bytes and
returns at once, dropping the rest of the input; a leftover open quad at
the end of input is a binascii.Error (modelled as `none`). -/
def a2bAux : List Char → Nat → Nat → Nat → List Nat → Option (List Nat)
  | [], quadPos, _, _, acc => if quadPos = 0 then some acc else none
  | c :: rest, quadPos, leftchar, pads, acc =>
    if c = '=' then
      if 2 ≤ quadPos ∧ 4 ≤ quadPos + pads + 1 then
        some (acc ++ (if quadPos = 2 then [leftchar / 16 % 256]
                      else [leftchar / 1024 % 256, leftchar / 4 % 256]))
      else a2bAux rest quadPos leftchar (pads + 1) acc
    else
      match b64val c with
      | none => a2bAux rest quadPos leftchar pads acc
      | some v =>
        match quadPos with
        | 0 => a2bAux rest 1 v 0 acc
        | 1 => a2bAux rest 2 (leftchar * 64 + v) 0 acc
        | 2 => a2bAux rest 3 (leftchar * 64 + v) 0 acc
        | _ => a2bAux rest 0 0 0
            (acc ++ [(leftchar * 64 + v) / 65536 % 256,
                     (leftchar * 64 + v) / 256 % 256,
                     (leftchar * 64 + v) % 256])

/-- Python base64.b64decode on a string, non-strict mode. -/
def b64decode (s : String) : Option (List Nat) :=
  a2bAux s.data 0 0 0 []

def b64alphabet : List Char :=
  "ABCDEFGHIJKLMNOPQRSTUVWXYZabcdefghijklmnopqrstuvwxyz0123456789+/".data

def b64chr (n : Nat) : Char := b64alphabet.getD n '='

/-- Standard base64 encoding of a byte list, three bytes to four
characters, with terminal padding. -/
def b64encodeChunks : List Nat → List Char
  | [] => []
  | [b1] => [b64chr (b1 / 4), b64chr (b1 % 4 * 16), '=', '=']
  | [b1, b2] => [b64chr (b1 / 4), b64chr (b1 % 4 * 16 + b2 / 16),
                 b64chr (b2 % 16 * 4), '=']
  | b1 :: b2 :: b3 :: rest =>
    b64chr (b1 / 4) :: b64chr (b1 % 4 * 16 + b2 / 16) ::
    b64chr (b2 % 16 * 4 + b3 / 64) :: b64chr (b3 % 64) :: b64encodeChunks rest

/-- Python base64.b64encode, returning the encoded text. -/
def b64encode (bs : List Nat) : String :=
  String.mk (b64encodeChunks bs)

/-! ### pydub AudioSegment, at the framing level

The pipeline only constrains the three framing parameters (frame rate,
channel count, sample width); the sample-payload conversions performed
by pydub when a framing parameter changes are audio-codec internals
delegated to the audio library and out of the scope of the spec, so the
setters below update the framing parameter as pydub does and carry the
payload through at this abstraction level. -/

structure AudioSegment where
  data : List Nat
  sample_width : Nat
  frame_rate : Nat
  channels : Nat
deriving DecidableEq

def AudioSegment.set_frame_rate (a : AudioSegment) (r : Nat) : AudioSegment :=
  { a with frame_rate := r }

def AudioSegment.set_channels (a : AudioSegment) (n : Nat) : AudioSegment :=
  { a with channels := n }

def AudioSegment.set_sample_width (a : AudioSegment) (w : Nat) : AudioSegment :=
  { a with sample_width := w }

def AudioSegment.raw_data (a : AudioSegment) : List Nat := a.data

/-- The conversion chain of audio_to_base64 (src/main.py line 45):
resample to 24 kHz, downmix to mono, quantize to 16-bit. -/
def to_model_segment (audio : AudioSegment) : AudioSegment :=
  ((audio.set_frame_rate 24000).set_channels 1).set_sample_width 2

/-- audio_to_base64 (src/main.py lines 40-51): convert the loaded audio
to 24 kHz mono 16-bit PCM and base64-encode the raw sample bytes. -/
def audio_to_base64 (audio : AudioSegment) : String :=
  b64encode (to_model_segment audio).raw_data

/-- The inverse conversion performed in main (src/main.py lines 176-187):
wrap raw PCM bytes in an AudioSegment with sample_width 2, frame_rate
24000, channels 1.  The spec names this direction from_model_format. -/
def from_model_format (pcm_audio : List Nat) : AudioSegment :=
  { data := pcm_audio, sample_width := 2, frame_rate := 24000, channels := 1 }

/-! ### The detect REST request (src/main.py lines 74-106) -/

structure AudioOptions where
  bleep_gain : Int
  bleep_start_padding : Int
  bleep_stop_padding : Int
deriving DecidableEq

structure AudioRequest where
  output_processed_audio : Bool
  options : AudioOptions
deriving DecidableEq

structure DetectPayload where
  file : String
  data_format : String
  audio : AudioRequest
  accuracy : String
  restrict_entity_types : List String
  input_type : String
  vault_id : String
deriving DecidableEq

/-- The JSON payload built by detect_audio (src/main.py lines 84-99). -/
def detect_payload (base64_audio vaultId : String) : DetectPayload :=
  { file := base64_audio
    data_format := "wav"
    audio := { output_processed_audio := true
               options := { bleep_gain := -30
                            bleep_start_padding := 0
                            bleep_stop_padding := 0 } }
    accuracy := "high_multilingual"
    restrict_entity_types := ["location", "ssn", "account_number"]
    input_type := "BASE64"
    vault_id := vaultId }

/-- The endpoint detect_audio posts to (src/main.py line 77). -/
def detect_url (base : String) : String := base ++ "/v1/detect/file"

/-- The request headers of detect_audio (src/main.py lines 78-82). -/
def detect_headers (accountId bearerToken : String) : List (String × String) :=
  [("Content-Type", "application/json"),
   ("x-skyflow-account-id", accountId),
   ("Authorization", "Bearer " ++ bearerToken)]

/-! ### Response records and HTTP handling (src/main.py lines 101-118) -/

/-- The parsed JSON body of a successful detect submit. -/
structure DetectResponse where
  status_url : String
deriving DecidableEq

/-- One artifact of the redaction output list. -/
structure OutputEntry where
  processedFileType : String
  processedFile : String
deriving DecidableEq

/-- The parsed JSON body of a status poll.  A parsed JSON object with
its fields present is a nonempty Python dict, hence truthy. -/
structure StatusResponse where
  status : String
  output : List OutputEntry
deriving DecidableEq

structure DetectHttpResponse where
  status_code : Nat
  body : DetectResponse
deriving DecidableEq

structure StatusHttpResponse where
  status_code : Nat
  body : StatusResponse
deriving DecidableEq

/-- Response handling of detect_audio (src/main.py lines 101-106): the
parsed JSON is returned when status_code equals 200, every other code
is logged and yields None. -/
def detect_audio_handle (r : DetectHttpResponse) : Option DetectResponse :=
  if r.status_code = 200 then some r.body else none

/-- Response handling of check_status (src/main.py lines 113-118):
same shape as detect_audio_handle. -/
def check_status_handle (r : StatusHttpResponse) : Option StatusResponse :=
  if r.status_code = 200 then some r.body else none

/-! ### Python str.split and the job identifier (src/main.py line 133) -/

/-- Python str.split with an explicit single-character separator:
splitting the empty string gives one empty group, adjacent separators
give empty groups. -/
def pySplit (sep : Char) : List Char → List (List Char)
  | [] => [[]]
  | c :: rest =>
    if c = sep then [] :: pySplit sep rest
    else
      match pySplit sep rest with
      | [] => [[c]]
      | g :: gs => (c :: g) :: gs

/-- Python negative indexing [-1] on a split result (split never
returns an empty list, so the empty default is unreachable). -/
def pyLast : List (List Char) → List Char
  | [] => []
  | [g] => g
  | _ :: g :: gs => pyLast (g :: gs)

/-- status_id extraction (src/main.py line 133): the trailing segment
of status_url split on the slash character. -/
def status_id_of (d : DetectResponse) : List Char :=
  pyLast (pySplit '/' d.status_url.data)

/-! ### The status polling loop of main (src/main.py lines 136-198)

The loop is modelled as a function of the finite trace of poll results
it consumes; a trace that runs out corresponds to a run still polling.
Side effects are recorded as an action list. -/

inductive Act where
  | poll
  | sleep (seconds : Nat)
  | writeFile (path : String) (contents : Option (List Nat))
  | logFailed
  | transcode
  | connectSpeech
  | sendAudio
deriving DecidableEq

inductive RunOutcome where
  /-- SUCCESS with a matching artifact: the artifact was processed. -/
  | processedOk
  /-- SUCCESS with no matching artifact: the for loop finds nothing and
  the while loop is exited with no write, no session and no error. -/
  | successNoArtifact
  /-- FAILED: the loop logs and exits. -/
  | jobFailed
  /-- An absent poll result reaches the elif of line 193, which calls
  .get on None and raises an unhandled AttributeError. -/
  | attrErrorCrash
  /-- The supplied trace was exhausted while still pending. -/
  | traceExhausted
deriving DecidableEq

structure RunResult where
  actions : List Act
  consumed : List (Option StatusResponse)
  extracted : Option OutputEntry
  outcome : RunOutcome
deriving DecidableEq

/-- The for loop over the output list (src/main.py lines 140-191): scan
in order for the first entry whose processedFileType is
"redacted_audio"; break after processing it. -/
def findRedactedEntry : List OutputEntry → Option OutputEntry
  | [] => none
  | o :: rest =>
    if o.processedFileType = "redacted_audio" then some o
    else findRedactedEntry rest

/-- The effects of the for loop body (src/main.py lines 142-191): on the
first matching entry, decode and write processed_output.wav, transcode
it (audio_to_base64), connect the websocket and send the audio, then
break out of the for loop; entries after the first match are never
reached. -/
def processOutputs : List OutputEntry → List Act
  | [] => []
  | o :: rest =>
    if o.processedFileType = "redacted_audio" then
      [Act.writeFile "processed_output.wav" (b64decode o.processedFile),
       Act.transcode, Act.connectSpeech, Act.sendAudio]
    else processOutputs rest

/-- The while loop of main (src/main.py lines 136-198), one iteration
per consumed poll result: poll, then branch on the snapshot exactly as
lines 139, 193 and 196 do. -/
def pollLoop : List (Option StatusResponse) → RunResult
  | [] => { actions := [], consumed := [], extracted := none,
            outcome := RunOutcome.traceExhausted }
  | r :: rest =>
    match r with
    | some s =>
      if s.status = "SUCCESS" then
        { actions := Act.poll :: processOutputs s.output
          consumed := [some s]
          extracted := findRedactedEntry s.output
          outcome := match findRedactedEntry s.output with
            | some _ => RunOutcome.processedOk
            | none => RunOutcome.successNoArtifact }
      else if s.status = "FAILED" then
        { actions := [Act.poll, Act.logFailed]
          consumed := [some s]
          extracted := none
          outcome := RunOutcome.jobFailed }
      else
        let rr := pollLoop rest
        { actions := Act.poll :: Act.sleep 2 :: rr.actions
          consumed := some s :: rr.consumed
          extracted := rr.extracted
          outcome := rr.outcome }
    | none =>
      { actions := [Act.poll]
        consumed := [none]
        extracted := none
        outcome := RunOutcome.attrErrorCrash }

/-- The polling loop fed directly with HTTP responses, each filtered
through check_status response handling. -/
def pollLoopHttp (rs : List StatusHttpResponse) : RunResult :=
  pollLoop (rs.map check_status_handle)

/-! ### The websocket receive loop (src/main.py lines 163-191) -/

/-- A parsed streamed JSON event: its type field, and its delta field
when present. -/
structure WsEvent where
  type : String
  delta : Option String
deriving DecidableEq

structure StreamState where
  accumulated_audio : String
  done : Bool
  outputWav : Option AudioSegment
deriving DecidableEq

def initStreamState : StreamState :=
  { accumulated_audio := "", done := false, outputWav := none }

/-- The async-for receive loop (src/main.py lines 163-191): delta events
append their delta field to the accumulator; the done event decodes the
accumulator once, rebuilds the AudioSegment with the fixed framing, and
breaks; every other event type is ignored.  `none` models the uncaught
Python error of a delta event without delta field or of a failing final
decode. -/
def streamLoop (st : StreamState) : List WsEvent → Option StreamState
  | [] => some st
  | ev :: rest =>
    if ev.type = "response.audio.delta" then
      match ev.delta with
      | some d =>
        streamLoop { st with accumulated_audio := st.accumulated_audio ++ d } rest
      | none => none
    else if ev.type = "response.audio.done" then
      match b64decode st.accumulated_audio with
      | some pcm =>
        some { st with done := true, outputWav := some (from_model_format pcm) }
      | none => none
    else streamLoop st rest

/-- The three-fragment stream of the spec scenario. -/
def c3events : List WsEvent :=
  [{ type := "response.audio.delta", delta := some "QQ==" },
   { type := "response.audio.delta", delta := some "Qg==" },
   { type := "response.audio.delta", delta := some "Qw==" },
   { type := "response.audio.done", delta := none }]

/-- Occurrence count of one action in an action list. -/
def countA (a : Act) : List Act → Nat
  | [] => 0
  | b :: rest => (if b = a then 1 else 0) + countA a rest

/-! ### Helper lemmas -/

theorem pySplit_ne_nil (sep : Char) (l : List Char) : pySplit sep l ≠ [] := by
  cases l with
  | nil => simp [pySplit]
  | cons c rest =>
    simp only [pySplit]
    split
    · simp
    · split <;> simp

theorem pySplit_no_sep (sep : Char) (l : List Char) (h : sep ∉ l) :
    pySplit sep l = [l] := by
  induction l with
  | nil => rfl
  | cons c rest ih =>
    have hc : ¬ c = sep := fun e => h (e ▸ List.mem_cons_self c rest)
    have hr : sep ∉ rest := fun m => h (List.mem_cons_of_mem c m)
    simp only [pySplit, if_neg hc, ih hr]

theorem pySplit_two_le (sep : Char) (l : List Char) (h : sep ∈ l) :
    2 ≤ (pySplit sep l).length := by
  induction l with
  | nil => cases h
  | cons c rest ih =>
    by_cases hc : c = sep
    · have h1 : (pySplit sep rest).length ≠ 0 :=
        fun e => pySplit_ne_nil sep rest (List.length_eq_zero.mp e)
      simp only [pySplit, if_pos hc, List.length_cons]
      omega
    · have hr : sep ∈ rest := by
        rcases List.mem_cons.mp h with h | h
        · exact absurd h.symm hc
        · exact h
      have h2 := ih hr
      simp only [pySplit, if_neg hc]
      cases hs : pySplit sep rest with
      | nil => exact absurd hs (pySplit_ne_nil sep rest)
      | cons g gs =>
        rw [hs] at h2
        simpa using h2

theorem pyLast_cons (g : List Char) (l : List (List Char)) (h : l ≠ []) :
    pyLast (g :: l) = pyLast l := by
  cases l with
  | nil => exact absurd rfl h
  | cons g2 gs => rfl

theorem pySplit_sep_cons (sep : Char) (l : List Char) :
    pySplit sep (sep :: l) = [] :: pySplit sep l := by
  simp [pySplit]

theorem pyLast_pySplit_append (sep : Char) (p t : List Char) (h : sep ∉ t) :
    pyLast (pySplit sep (p ++ sep :: t)) = t := by
  induction p with
  | nil =>
    rw [List.nil_append, pySplit_sep_cons,
      pyLast_cons _ _ (pySplit_ne_nil sep t), pySplit_no_sep sep t h]
    rfl
  | cons c p ih =>
    by_cases hc : c = sep
    · subst hc
      rw [List.cons_append, pySplit_sep_cons,
        pyLast_cons _ _ (pySplit_ne_nil _ _)]
      exact ih
    · have hmem : sep ∈ p ++ sep :: t :=
        List.mem_append_right _ (List.mem_cons_self _ _)
      simp only [List.cons_append, pySplit, if_neg hc]
      cases hs : pySplit sep (p ++ sep :: t) with
      | nil => exact absurd hs (pySplit_ne_nil _ _)
      | cons g gs =>
        have h2 := pySplit_two_le sep _ hmem
        rw [hs] at h2
        have hgs : gs ≠ [] := by
          cases gs with
          | nil => simp at h2
          | cons a b => simp
        have h3 := ih
        rw [hs, pyLast_cons _ _ hgs] at h3
        rw [pyLast_cons _ _ hgs]
        exact h3

theorem pollLoop_pending_cons (s : StatusResponse) (t : List (Option StatusResponse))
    (h1 : s.status ≠ "SUCCESS") (h2 : s.status ≠ "FAILED") :
    pollLoop (some s :: t) =
      { actions := Act.poll :: Act.sleep 2 :: (pollLoop t).actions
        consumed := some s :: (pollLoop t).consumed
        extracted := (pollLoop t).extracted
        outcome := (pollLoop t).outcome } := by
  simp only [pollLoop, if_neg h1, if_neg h2]

theorem pollLoop_replicate (N : Nat) (p : StatusResponse)
    (t : List (Option StatusResponse))
    (h1 : p.status ≠ "SUCCESS") (h2 : p.status ≠ "FAILED") :
    pollLoop (List.replicate N (some p) ++ t) =
      { actions := (List.replicate N [Act.poll, Act.sleep 2]).flatten ++ (pollLoop t).actions
        consumed := List.replicate N (some p) ++ (pollLoop t).consumed
        extracted := (pollLoop t).extracted
        outcome := (pollLoop t).outcome } := by
  induction N with
  | zero => simp
  | succ n ih =>
    rw [List.replicate_succ, List.cons_append, pollLoop_pending_cons p _ h1 h2, ih]
    simp [List.replicate_succ]

theorem countA_append (a : Act) (l1 l2 : List Act) :
    countA a (l1 ++ l2) = countA a l1 + countA a l2 := by
  induction l1 with
  | nil => simp [countA]
  | cons b r ih =>
    show (if b = a then 1 else 0) + countA a (r ++ l2)
        = (if b = a then 1 else 0) + countA a r + countA a l2
    rw [ih, Nat.add_assoc]

theorem countA_flatten_replicate (a : Act) (N : Nat) (l : List Act) :
    countA a (List.replicate N l).flatten = N * countA a l := by
  induction N with
  | zero => simp [countA]
  | succ n ih =>
    rw [List.replicate_succ, List.flatten_cons, countA_append, ih]
    ring

theorem countA_processOutputs_poll (l : List OutputEntry) :
    countA Act.poll (processOutputs l) = 0 := by
  induction l with
  | nil => rfl
  | cons o r ih =>
    simp only [processOutputs]
    split
    · rfl
    · exact ih

theorem countA_processOutputs_sleep (l : List OutputEntry) :
    countA (Act.sleep 2) (processOutputs l) = 0 := by
  induction l with
  | nil => rfl
  | cons o r ih =>
    simp only [processOutputs]
    split
    · rfl
    · exact ih

theorem findRedactedEntry_isRedacted (l : List OutputEntry) (e : OutputEntry)
    (h : findRedactedEntry l = some e) : e.processedFileType = "redacted_audio" := by
  induction l with
  | nil => cases h
  | cons o r ih =>
    simp only [findRedactedEntry] at h
    split at h
    · cases h
      assumption
    · exact ih h

theorem processOutputs_first_match (pre post : List OutputEntry) (e : OutputEntry)
    (hpre : ∀ x ∈ pre, x.processedFileType ≠ "redacted_audio")
    (he : e.processedFileType = "redacted_audio") :
    processOutputs (pre ++ e :: post) =
      [Act.writeFile "processed_output.wav" (b64decode e.processedFile),
       Act.transcode, Act.connectSpeech, Act.sendAudio] ∧
    findRedactedEntry (pre ++ e :: post) = some e := by
  induction pre with
  | nil => simp [processOutputs, findRedactedEntry, if_pos he]
  | cons x pre ih =>
    have hx : x.processedFileType ≠ "redacted_audio" :=
      hpre x (List.mem_cons_self x pre)
    have hrest : ∀ y ∈ pre, y.processedFileType ≠ "redacted_audio" :=
      fun y hy => hpre y (List.mem_cons_of_mem x hy)
    simp only [List.cons_append, processOutputs, findRedactedEntry, if_neg hx]
    exact ih hrest

/-! ### Claim theorems -/

/-- C1: for every waveform, converting with audio_to_base64 and applying
the inverse conversion of main (from_model_format on the decoded bytes)
yields audio whose frame rate is exactly 24000, channel count exactly 1
and sample width exactly 2; and the two directions fix the same three
framing parameters. -/
theorem transcode_roundtrip_framing (a : AudioSegment) (pcm : List Nat)
    (h : b64decode (audio_to_base64 a) = some pcm) :
    ((from_model_format pcm).frame_rate = 24000 ∧
     (from_model_format pcm).channels = 1 ∧
     (from_model_format pcm).sample_width = 2) ∧
    ((to_model_segment a).frame_rate = (from_model_format pcm).frame_rate ∧
     (to_model_segment a).channels = (from_model_format pcm).channels ∧
     (to_model_segment a).sample_width = (from_model_format pcm).sample_width) :=
  ⟨⟨rfl, rfl, rfl⟩, rfl, rfl, rfl⟩

/-- Witness for C1 at a concrete two-byte stereo 44.1 kHz input. -/
theorem transcode_roundtrip_framing_witness :
    b64decode (audio_to_base64
        { data := [0, 1], sample_width := 2, frame_rate := 44100, channels := 2 }) =
      some [0, 1] ∧
    ((((from_model_format [0, 1]).frame_rate = 24000 ∧
       (from_model_format [0, 1]).channels = 1 ∧
       (from_model_format [0, 1]).sample_width = 2) ∧
      ((to_model_segment
          { data := [0, 1], sample_width := 2, frame_rate := 44100,
            channels := 2 }).frame_rate = (from_model_format [0, 1]).frame_rate ∧
       (to_model_segment
          { data := [0, 1], sample_width := 2, frame_rate := 44100,
            channels := 2 }).channels = (from_model_format [0, 1]).channels ∧
       (to_model_segment
          { data := [0, 1], sample_width := 2, frame_rate := 44100,
            channels := 2 }).sample_width = (from_model_format [0, 1]).sample_width))) :=
  ⟨by decide, transcode_roundtrip_framing _ [0, 1] (by decide)⟩

/-- C3, counterexample: with the three delta fragments of the claim the
accumulator does equal the pure concatenation, and each fragment decodes
to its own byte, yet decoding the accumulated string does not give the
concatenation of the three individually decoded bytes: the CPython
base64 decoder stops at the first complete padding sequence, so the
final decode yields only the first byte. -/
theorem stream_decode_concat_counterexample :
    (streamLoop initStreamState c3events).map StreamState.accumulated_audio =
      some "QQ==Qg==Qw==" ∧
    b64decode "QQ==" = some [65] ∧
    b64decode "Qg==" = some [66] ∧
    b64decode "Qw==" = some [67] ∧
    b64decode "QQ==Qg==Qw==" ≠ some ([65] ++ [66] ++ [67]) := by
  decide

/-- C3, amended: after the three delta events and the done event, the
accumulator equals the pure string concatenation of the fragments with
nothing dropped, reordered or decoded piecewise, decoding happens once
at the end, and that single decode yields [65] (the bytes of the first
fragment only, everything after the first complete padding sequence
being discarded), not the concatenation [65, 66, 67] of the fragments'
individually decoded bytes. -/
theorem stream_accumulates_then_single_decode :
    streamLoop initStreamState c3events =
      some { accumulated_audio := "QQ==Qg==Qw==", done := true,
             outputWav := some { data := [65], sample_width := 2,
                                 frame_rate := 24000, channels := 1 } } ∧
    ("QQ==" ++ "Qg==" ++ "Qw==" : String) = "QQ==Qg==Qw==" ∧
    b64decode "QQ==Qg==Qw==" = some [65] := by
  decide

/-- C8: an event whose type is neither response.audio.delta nor
response.audio.done leaves the accumulator and the whole loop state
unchanged, and the receive loop goes on with the next message. -/
theorem other_stream_events_ignored (st : StreamState) (ev : WsEvent)
    (rest : List WsEvent)
    (h1 : ev.type ≠ "response.audio.delta")
    (h2 : ev.type ≠ "response.audio.done") :
    streamLoop st (ev :: rest) = streamLoop st rest := by
  simp only [streamLoop, if_neg h1, if_neg h2]

/-- Witness for C8 at a concrete session.created event. -/
theorem other_stream_events_ignored_witness :
    ({ type := "session.created", delta := none } : WsEvent).type ≠
      "response.audio.delta" ∧
    ({ type := "session.created", delta := none } : WsEvent).type ≠
      "response.audio.done" ∧
    streamLoop initStreamState [{ type := "session.created", delta := none }] =
      streamLoop initStreamState [] :=
  ⟨by decide, by decide,
   other_stream_events_ignored initStreamState _ [] (by decide) (by decide)⟩

/-- C5: evaluation of the loop at a failing input.  A poll whose HTTP
response is non-2xx makes check_status return an absent snapshot; the
loop body then reaches the elif of line 193, which applies .get to the
absent snapshot and raises an unhandled AttributeError instead of
aborting with a logged message. -/
theorem absent_poll_applies_failed_check :
    check_status_handle
      { status_code := 500, body := { status := "PENDING", output := [] } } = none ∧
    (pollLoopHttp
      [{ status_code := 500,
         body := { status := "PENDING", output := [] } }]).outcome =
      RunOutcome.attrErrorCrash ∧
    (pollLoopHttp
      [{ status_code := 500,
         body := { status := "PENDING", output := [] } }]).actions = [Act.poll] := by
  decide

/-- C6: evaluation of the loop at a failing input.  On a SUCCESS
snapshot whose output list has no redacted_audio entry, the for loop of
line 140 matches nothing and the while loop is left with no write, no
speech session and no error of any kind: the run completes silently
instead of raising an explicit MalformedResponse. -/
theorem success_without_artifact_is_silent :
    (pollLoop [some (StatusResponse.mk "SUCCESS"
        [OutputEntry.mk "transcript" "AA=="])]).outcome =
      RunOutcome.successNoArtifact ∧
    (pollLoop [some (StatusResponse.mk "SUCCESS"
        [OutputEntry.mk "transcript" "AA=="])]).actions = [Act.poll] ∧
    (pollLoop [some (StatusResponse.mk "SUCCESS"
        [OutputEntry.mk "transcript" "AA=="])]).extracted = none := by
  decide

/-- C7, counterexample: it is not true that the two REST operations
return the parsed body exactly on the 2xx range; a 201 response is in
the range yet both return an absent result, because the source tests
status_code == 200. -/
theorem http_2xx_iff_refuted :
    ¬ (∀ (rd : DetectHttpResponse) (rs : StatusHttpResponse),
        ((detect_audio_handle rd).isSome = true ↔
          200 ≤ rd.status_code ∧ rd.status_code ≤ 299) ∧
        ((check_status_handle rs).isSome = true ↔
          200 ≤ rs.status_code ∧ rs.status_code ≤ 299)) := by
  intro h
  have h1 := (h { status_code := 201, body := { status_url := "" } }
                { status_code := 201, body := { status := "", output := [] } }).1
  have h2 := h1.mpr (by decide)
  exact absurd h2 (by decide)

/-- C7, amended: each of the two REST operations returns the parsed
JSON body exactly when the response status code equals 200; every other
code, the rest of the 2xx range included, is logged and yields an
absent result. -/
theorem http_handling_returns_iff_200 (rd : DetectHttpResponse)
    (rs : StatusHttpResponse) :
    ((detect_audio_handle rd).isSome = true ↔ rd.status_code = 200) ∧
    ((check_status_handle rs).isSome = true ↔ rs.status_code = 200) := by
  constructor
  · by_cases h : rd.status_code = 200 <;> simp [detect_audio_handle, h]
  · by_cases h : rs.status_code = 200 <;> simp [check_status_handle, h]

/-- C2: with a non-terminal snapshot on the first N polls and SUCCESS on
the next, the loop issues exactly N+1 polls with a sleep of 2 seconds
between consecutive attempts, any status other than SUCCESS and FAILED
counts as still-pending, and on SUCCESS the extracted artifact is the
redacted_audio output entry. -/
theorem polling_pending_then_success (N : Nat) (pend : StatusResponse)
    (succOut : List OutputEntry)
    (h1 : pend.status ≠ "SUCCESS") (h2 : pend.status ≠ "FAILED") :
    countA Act.poll (pollLoop (List.replicate N (some pend) ++
      [some (StatusResponse.mk "SUCCESS" succOut)])).actions = N + 1 ∧
    countA (Act.sleep 2) (pollLoop (List.replicate N (some pend) ++
      [some (StatusResponse.mk "SUCCESS" succOut)])).actions = N ∧
    (pollLoop (List.replicate N (some pend) ++
      [some (StatusResponse.mk "SUCCESS" succOut)])).actions =
      (List.replicate N [Act.poll, Act.sleep 2]).flatten ++
        Act.poll :: processOutputs succOut ∧
    (pollLoop (List.replicate N (some pend) ++
      [some (StatusResponse.mk "SUCCESS" succOut)])).extracted =
      findRedactedEntry succOut ∧
    (∀ e, findRedactedEntry succOut = some e →
      e.processedFileType = "redacted_audio") := by
  have hact : (pollLoop (List.replicate N (some pend) ++
      [some (StatusResponse.mk "SUCCESS" succOut)])).actions =
      (List.replicate N [Act.poll, Act.sleep 2]).flatten ++
        Act.poll :: processOutputs succOut := by
    rw [pollLoop_replicate N pend _ h1 h2]
    simp [pollLoop]
  have hext : (pollLoop (List.replicate N (some pend) ++
      [some (StatusResponse.mk "SUCCESS" succOut)])).extracted =
      findRedactedEntry succOut := by
    rw [pollLoop_replicate N pend _ h1 h2]
    simp [pollLoop]
  have e1 : countA Act.poll [Act.poll, Act.sleep 2] = 1 := by decide
  have e2 : countA (Act.sleep 2) [Act.poll, Act.sleep 2] = 1 := by decide
  have e3 : countA Act.poll (Act.poll :: processOutputs succOut)
      = 1 + countA Act.poll (processOutputs succOut) := rfl
  have e4 : countA (Act.sleep 2) (Act.poll :: processOutputs succOut)
      = 0 + countA (Act.sleep 2) (processOutputs succOut) := rfl
  refine ⟨?_, ?_, hact, hext, fun e he => findRedactedEntry_isRedacted succOut e he⟩
  · rw [hact, countA_append, countA_flatten_replicate, e1, e3,
      countA_processOutputs_poll]
    omega
  · rw [hact, countA_append, countA_flatten_replicate, e2, e4,
      countA_processOutputs_sleep]
    omega

/-- Witness for C2 at N = 1 with a PENDING snapshot and one matching
artifact. -/
theorem polling_pending_then_success_witness :
    (StatusResponse.mk "PENDING" []).status ≠ "SUCCESS" ∧
    (StatusResponse.mk "PENDING" []).status ≠ "FAILED" ∧
    (countA Act.poll (pollLoop (List.replicate 1 (some (StatusResponse.mk "PENDING" [])) ++
      [some (StatusResponse.mk "SUCCESS"
        [OutputEntry.mk "redacted_audio" "QQ=="])])).actions = 1 + 1 ∧
    countA (Act.sleep 2) (pollLoop (List.replicate 1 (some (StatusResponse.mk "PENDING" [])) ++
      [some (StatusResponse.mk "SUCCESS"
        [OutputEntry.mk "redacted_audio" "QQ=="])])).actions = 1 ∧
    (pollLoop (List.replicate 1 (some (StatusResponse.mk "PENDING" [])) ++
      [some (StatusResponse.mk "SUCCESS"
        [OutputEntry.mk "redacted_audio" "QQ=="])])).actions =
      (List.replicate 1 [Act.poll, Act.sleep 2]).flatten ++
        Act.poll :: processOutputs [OutputEntry.mk "redacted_audio" "QQ=="] ∧
    (pollLoop (List.replicate 1 (some (StatusResponse.mk "PENDING" [])) ++
      [some (StatusResponse.mk "SUCCESS"
        [OutputEntry.mk "redacted_audio" "QQ=="])])).extracted =
      findRedactedEntry [OutputEntry.mk "redacted_audio" "QQ=="] ∧
    (∀ e, findRedactedEntry [OutputEntry.mk "redacted_audio" "QQ=="] = some e →
      e.processedFileType = "redacted_audio")) :=
  ⟨by decide, by decide,
   polling_pending_then_success 1 (StatusResponse.mk "PENDING" [])
     [OutputEntry.mk "redacted_audio" "QQ=="] (by decide) (by decide)⟩

/-- C4: in any run one of whose consumed polls is a FAILED snapshot, the
loop ends with the job-failed outcome after logging, and the action
trace contains no transcoding, no speech connection and no message sent
to the speech service. -/
theorem failed_poll_aborts (trace : List (Option StatusResponse))
    (s : StatusResponse)
    (hmem : some s ∈ (pollLoop trace).consumed) (hf : s.status = "FAILED") :
    (pollLoop trace).outcome = RunOutcome.jobFailed ∧
    Act.logFailed ∈ (pollLoop trace).actions ∧
    Act.transcode ∉ (pollLoop trace).actions ∧
    Act.connectSpeech ∉ (pollLoop trace).actions ∧
    Act.sendAudio ∉ (pollLoop trace).actions := by
  induction trace with
  | nil => simp [pollLoop] at hmem
  | cons r rest ih =>
    cases r with
    | none => simp [pollLoop] at hmem
    | some st =>
      by_cases hS : st.status = "SUCCESS"
      · have hc : (pollLoop (some st :: rest)).consumed = [some st] := by
          simp [pollLoop, hS]
        rw [hc] at hmem
        have hst : s = st := by simpa using hmem
        rw [hst] at hf
        exact absurd (hS.symm.trans hf) (by decide)
      · by_cases hF : st.status = "FAILED"
        · refine ⟨?_, ?_, ?_, ?_, ?_⟩ <;> simp [pollLoop, hS, hF]
        · have hcons := pollLoop_pending_cons st rest hS hF
          have hmem2 : some s ∈ some st :: (pollLoop rest).consumed := by
            rw [hcons] at hmem
            exact hmem
          rcases List.mem_cons.mp hmem2 with heq | hmem3
          · have hst : s = st := Option.some.inj heq
            rw [hst] at hf
            exact absurd hf hF
          · obtain ⟨o1, o2, o3, o4, o5⟩ := ih hmem3
            rw [hcons]
            refine ⟨?_, ?_, ?_, ?_, ?_⟩ <;>
              simp [List.mem_cons, o1, o2, o3, o4, o5]

/-- Witness for C4 at the one-poll FAILED trace. -/
theorem failed_poll_aborts_witness :
    some (StatusResponse.mk "FAILED" []) ∈
      (pollLoop [some (StatusResponse.mk "FAILED" [])]).consumed ∧
    (StatusResponse.mk "FAILED" []).status = "FAILED" ∧
    ((pollLoop [some (StatusResponse.mk "FAILED" [])]).outcome =
      RunOutcome.jobFailed ∧
    Act.logFailed ∈ (pollLoop [some (StatusResponse.mk "FAILED" [])]).actions ∧
    Act.transcode ∉ (pollLoop [some (StatusResponse.mk "FAILED" [])]).actions ∧
    Act.connectSpeech ∉ (pollLoop [some (StatusResponse.mk "FAILED" [])]).actions ∧
    Act.sendAudio ∉ (pollLoop [some (StatusResponse.mk "FAILED" [])]).actions) :=
  ⟨by decide, rfl,
   failed_poll_aborts [some (StatusResponse.mk "FAILED" [])]
     (StatusResponse.mk "FAILED" []) (by decide) rfl⟩

/-- C9: the submit operation posts to base ++ /v1/detect/file with a
bearer Authorization header, and its JSON body carries the base64 file,
data_format wav, output_processed_audio true with the bleep options,
accuracy high_multilingual, exactly the entity types location, ssn and
account_number, input_type BASE64 and the vault id; and the job
identifier is the trailing path segment of the returned status_url. -/
theorem detect_request_contract :
    (∀ b64 vid, (detect_payload b64 vid).file = b64 ∧
      (detect_payload b64 vid).data_format = "wav" ∧
      (detect_payload b64 vid).audio.output_processed_audio = true ∧
      (detect_payload b64 vid).audio.options = AudioOptions.mk (-30) 0 0 ∧
      (detect_payload b64 vid).accuracy = "high_multilingual" ∧
      (∀ x, x ∈ (detect_payload b64 vid).restrict_entity_types ↔
        (x = "location" ∨ x = "ssn" ∨ x = "account_number")) ∧
      (detect_payload b64 vid).input_type = "BASE64" ∧
      (detect_payload b64 vid).vault_id = vid) ∧
    (∀ base, detect_url base = base ++ "/v1/detect/file") ∧
    (∀ accountId tok,
      ("Authorization", "Bearer " ++ tok) ∈ detect_headers accountId tok) ∧
    (∀ (d : DetectResponse) (p t : List Char),
      d.status_url.data = p ++ '/' :: t → ('/' : Char) ∉ t →
        status_id_of d = t) := by
  refine ⟨fun b64 vid => ⟨rfl, rfl, rfl, rfl, rfl, fun x => ?_, rfl, rfl⟩,
    fun base => rfl, fun a tok => ?_, fun d p t hd hn => ?_⟩
  · simp [detect_payload]
  · simp [detect_headers]
  · unfold status_id_of
    rw [hd]
    exact pyLast_pySplit_append '/' p t hn

/-- Witness for C9: the job identifier of the status URL a/b/j1 is j1. -/
theorem detect_request_contract_witness :
    (DetectResponse.mk "a/b/j1").status_url.data =
      ('a' :: '/' :: 'b' :: []) ++ '/' :: ('j' :: '1' :: []) ∧
    ('/' : Char) ∉ ('j' :: '1' :: []) ∧
    status_id_of (DetectResponse.mk "a/b/j1") = ('j' :: '1' :: []) :=
  ⟨by decide, by decide,
   detect_request_contract.2.2.2 (DetectResponse.mk "a/b/j1")
     ('a' :: '/' :: 'b' :: []) ('j' :: '1' :: []) (by decide) (by decide)⟩

/-- C10: when the SUCCESS output list is pre ++ e :: post with e the
first redacted_audio entry, exactly e is extracted, its decoded bytes
are written to processed_output.wav and forwarded to the speech session,
and no later entry, matching or not, produces any further action. -/
theorem first_matching_artifact_processed (pre post : List OutputEntry)
    (e : OutputEntry)
    (hpre : ∀ x ∈ pre, x.processedFileType ≠ "redacted_audio")
    (he : e.processedFileType = "redacted_audio") :
    (pollLoop [some (StatusResponse.mk "SUCCESS" (pre ++ e :: post))]).extracted =
      some e ∧
    (pollLoop [some (StatusResponse.mk "SUCCESS" (pre ++ e :: post))]).actions =
      [Act.poll,
       Act.writeFile "processed_output.wav" (b64decode e.processedFile),
       Act.transcode, Act.connectSpeech, Act.sendAudio] ∧
    (pollLoop [some (StatusResponse.mk "SUCCESS" (pre ++ e :: post))]).outcome =
      RunOutcome.processedOk := by
  obtain ⟨hpo, hfe⟩ := processOutputs_first_match pre post e hpre he
  refine ⟨?_, ?_, ?_⟩ <;> simp [pollLoop, hpo, hfe]

/-- Witness for C10 with one non-matching entry before and one matching
entry after the first match. -/
theorem first_matching_artifact_processed_witness :
    (∀ x ∈ [OutputEntry.mk "transcript" "AA=="],
      x.processedFileType ≠ "redacted_audio") ∧
    (OutputEntry.mk "redacted_audio" "QQ==").processedFileType =
      "redacted_audio" ∧
    ((pollLoop [some (StatusResponse.mk "SUCCESS"
        ([OutputEntry.mk "transcript" "AA=="] ++
          OutputEntry.mk "redacted_audio" "QQ==" ::
            [OutputEntry.mk "redacted_audio" "Qg=="]))]).extracted =
      some (OutputEntry.mk "redacted_audio" "QQ==") ∧
    (pollLoop [some (StatusResponse.mk "SUCCESS"
        ([OutputEntry.mk "transcript" "AA=="] ++
          OutputEntry.mk "redacted_audio" "QQ==" ::
            [OutputEntry.mk "redacted_audio" "Qg=="]))]).actions =
      [Act.poll,
       Act.writeFile "processed_output.wav"
         (b64decode (OutputEntry.mk "redacted_audio" "QQ==").processedFile),
       Act.transcode, Act.connectSpeech, Act.sendAudio] ∧
    (pollLoop [some (StatusResponse.mk "SUCCESS"
        ([OutputEntry.mk "transcript" "AA=="] ++
          OutputEntry.mk "redacted_audio" "QQ==" ::
            [OutputEntry.mk "redacted_audio" "Qg=="]))]).outcome =
      RunOutcome.processedOk) :=
  ⟨by decide, rfl,
   first_matching_artifact_processed [OutputEntry.mk "transcript" "AA=="]
     [OutputEntry.mk "redacted_audio" "Qg=="]
     (OutputEntry.mk "redacted_audio" "QQ==") (by decide) rfl⟩
